import Mathlib

/-!
Verification of the v10-stock-sentinel arbitration core.

Shallow embedding of the decision core (src/core/decision_core.py), the
global risk state (src/core/risk_control_enhanced.py), the V9 factor
fusion engine (src/core/factor_engine_v9.py) and the win-rate model
(src/core/win_rate_model.py).  Python floats are modelled as exact
rationals; the wall clock (datetime.now) is modelled as an explicit
natural-number reading passed in by the caller, so that functions whose
Python bodies read the clock become deterministic functions of that
reading.
-/

namespace StockSentinel

/-- Priority enum of decision_core.py (value 0 is the highest priority). -/
inductive Priority
  | P0_ACCOUNT_RISK
  | P1_MARKET_EXTREME
  | P2_REALTIME_FUND
  | P3_TREND_CHIP
  | P4_AI_NARRATIVE
  deriving DecidableEq, Repr

/-- The .value of the Python enum member. -/
def Priority.val : Priority → ℕ
  | .P0_ACCOUNT_RISK => 0
  | .P1_MARKET_EXTREME => 1
  | .P2_REALTIME_FUND => 2
  | .P3_TREND_CHIP => 3
  | .P4_AI_NARRATIVE => 4

/-- The .name of the Python enum member. -/
def Priority.pname : Priority → String
  | .P0_ACCOUNT_RISK => "P0_ACCOUNT_RISK"
  | .P1_MARKET_EXTREME => "P1_MARKET_EXTREME"
  | .P2_REALTIME_FUND => "P2_REALTIME_FUND"
  | .P3_TREND_CHIP => "P3_TREND_CHIP"
  | .P4_AI_NARRATIVE => "P4_AI_NARRATIVE"

/-- Signal enum of decision_core.py. -/
inductive Signal
  | STRONG_BUY
  | BUY
  | HOLD
  | REDUCE
  | SELL
  | STRONG_SELL
  | VETO
  deriving DecidableEq, Repr

/-- The .value string of the Python Signal enum member. -/
def Signal.sname : Signal → String
  | .STRONG_BUY => "strong_buy"
  | .BUY => "buy"
  | .HOLD => "hold"
  | .REDUCE => "reduce"
  | .SELL => "sell"
  | .STRONG_SELL => "strong_sell"
  | .VETO => "veto"

/-- Membership in the list of priorities checked by add_judgment:
[Priority.P0_ACCOUNT_RISK, Priority.P1_MARKET_EXTREME, Priority.P2_REALTIME_FUND]. -/
def Priority.isHigh : Priority → Bool
  | .P0_ACCOUNT_RISK => true
  | .P1_MARKET_EXTREME => true
  | .P2_REALTIME_FUND => true
  | _ => false

/-- Membership in [Signal.SELL, Signal.STRONG_SELL, Signal.VETO], the veto
signal list used by both add_judgment and make_verdict. -/
def Signal.isVetoClass : Signal → Bool
  | .SELL => true
  | .STRONG_SELL => true
  | .VETO => true
  | _ => false

/-- Membership in [Signal.STRONG_BUY, Signal.BUY] (the buy tally test of
make_verdict). -/
def Signal.isBuyClass : Signal → Bool
  | .STRONG_BUY => true
  | .BUY => true
  | _ => false

/-- Membership in [Signal.STRONG_SELL, Signal.SELL] (the sell tally test of
make_verdict). -/
def Signal.isSellClass : Signal → Bool
  | .STRONG_SELL => true
  | .SELL => true
  | _ => false

/-- JudgmentInput dataclass of decision_core.py. -/
structure JudgmentInput where
  priority : Priority
  signal : Signal
  reason : String
  confidence : ℚ
  source : String
  deriving DecidableEq, Repr

/-- One entry of the all_inputs list built by make_verdict (the Python dict
with keys priority, signal, reason, confidence, source). -/
structure InputRecord where
  priority : String
  signal : String
  reason : String
  confidence : ℚ
  source : String
  deriving DecidableEq, Repr

/-- FinalVerdict dataclass of decision_core.py. -/
structure FinalVerdict where
  action : String
  action_class : String
  confidence : ℚ
  primary_reason : String
  veto_reasons : List String
  all_inputs : List InputRecord
  timestamp : ℕ
  is_vetoed : Bool
  deriving DecidableEq, Repr

/-- The mutable state of a DecisionCore instance (judgments, veto_active,
veto_reasons); the config dict is not read by any code under proof. -/
structure DecisionCore where
  judgments : List JudgmentInput
  veto_active : Bool
  veto_reasons : List String
  deriving DecidableEq, Repr

/-- A fresh DecisionCore, as built by DecisionCore.__init__ / reset. -/
def DecisionCore.fresh : DecisionCore :=
  { judgments := [], veto_active := false, veto_reasons := [] }

/-- DecisionCore.add_judgment: append the judgment and set the veto flag
when a P0/P1/P2 judgment carries signal SELL/STRONG_SELL/VETO. -/
def add_judgment (c : DecisionCore) (priority : Priority) (signal : Signal)
    (reason : String) (confidence : ℚ) (source : String) : DecisionCore :=
  let j : JudgmentInput :=
    { priority := priority, signal := signal, reason := reason,
      confidence := confidence, source := source }
  let c' := { c with judgments := c.judgments ++ [j] }
  if priority.isHigh && signal.isVetoClass then
    { c' with veto_active := true,
              veto_reasons := c'.veto_reasons ++ ["[" ++ priority.pname ++ "] " ++ reason] }
  else c'

/-- add_judgment taking its arguments bundled, for folding a call sequence. -/
def addJudgmentInput (c : DecisionCore) (j : JudgmentInput) : DecisionCore :=
  add_judgment c j.priority j.signal j.reason j.confidence j.source

/-- The weight 1.0 / (priority.value + 1) used in the make_verdict tally. -/
def weightOf (j : JudgmentInput) : ℚ :=
  1 / (j.priority.val + 1)

/-- buy_score accumulated by the make_verdict loop: sum of
weight * confidence over BUY-class judgments (order-independent sum of the
loop increments). -/
def buy_score (l : List JudgmentInput) : ℚ :=
  (l.map (fun j => if j.signal.isBuyClass then weightOf j * j.confidence else 0)).sum

/-- sell_score accumulated by the make_verdict loop. -/
def sell_score (l : List JudgmentInput) : ℚ :=
  (l.map (fun j => if j.signal.isSellClass then weightOf j * j.confidence else 0)).sum

/-- buy_signals counter of the make_verdict loop. -/
def buy_signals (l : List JudgmentInput) : ℕ :=
  (l.filter (fun j => j.signal.isBuyClass)).length

/-- sell_signals counter of the make_verdict loop. -/
def sell_signals (l : List JudgmentInput) : ℕ :=
  (l.filter (fun j => j.signal.isSellClass)).length

/-- The all_inputs dict for one judgment. -/
def toInputRecord (j : JudgmentInput) : InputRecord :=
  { priority := j.priority.pname, signal := j.signal.sname, reason := j.reason,
    confidence := j.confidence, source := j.source }

/-- The stable sort by priority value performed by make_verdict
(Python sorted with key lambda x: x.priority.value). -/
def sortJudgments (l : List JudgmentInput) : List JudgmentInput :=
  List.insertionSort (fun a b => a.priority.val ≤ b.priority.val) l

/-- DecisionCore.make_verdict.  The datetime.now() read at each return site
is modelled by the explicit clock reading now. -/
def make_verdict (c : DecisionCore) (now : ℕ) : FinalVerdict :=
  if c.judgments = [] then
    { action := "观望", action_class := "watch", confidence := 1/2,
      primary_reason := "无有效信号", veto_reasons := [], all_inputs := [],
      timestamp := now, is_vetoed := false }
  else
    let sorted_judgments := sortJudgments c.judgments
    let all_inputs := sorted_judgments.map toInputRecord
    if c.veto_active then
      let watchVerdict : FinalVerdict :=
        { action := "⚠️ 观望为主", action_class := "watch", confidence := 7/10,
          primary_reason := "存在否决因子，不宜激进", veto_reasons := c.veto_reasons,
          all_inputs := all_inputs, timestamp := now, is_vetoed := true }
      match sorted_judgments.find? (fun j => j.signal.isVetoClass) with
      | some veto_signal =>
        if veto_signal.signal = Signal.STRONG_SELL then
          { action := "❌ 禁止买入", action_class := "run", confidence := 9/10,
            primary_reason := veto_signal.reason, veto_reasons := c.veto_reasons,
            all_inputs := all_inputs, timestamp := now, is_vetoed := true }
        else watchVerdict
      | none => watchVerdict
    else
      let b := buy_score sorted_judgments
      let s := sell_score sorted_judgments
      let nb := buy_signals sorted_judgments
      let ns := sell_signals sorted_judgments
      let head_reason := ((sorted_judgments.head?).map (fun j => j.reason)).getD ""
      if b > s + 1/2 ∧ 2 ≤ nb then
        { action := "✅ 可以关注", action_class := "go", confidence := min b 1,
          primary_reason := head_reason ++ "（" ++ toString nb ++ "个信号确认）",
          veto_reasons := [], all_inputs := all_inputs, timestamp := now,
          is_vetoed := false }
      else if s > b + 3/10 ∨ 2 ≤ ns then
        { action := "⚠️ 谨慎观望", action_class := "watch", confidence := min s 1,
          primary_reason := head_reason, veto_reasons := [], all_inputs := all_inputs,
          timestamp := now, is_vetoed := false }
      else
        { action := "⚖️ 多空平衡", action_class := "watch", confidence := 1/2,
          primary_reason := "信号不足或混合，需耐心等待", veto_reasons := [],
          all_inputs := all_inputs, timestamp := now, is_vetoed := false }

/-- Substring test (the Python expression word in narrative), over char lists. -/
def listContains : List Char → List Char → Bool
  | [], pat => pat.isEmpty
  | c :: rest, pat => pat.isPrefixOf (c :: rest) || listContains rest pat

/-- Python str.replace, fuelled so that it is structurally recursive: each
step consumes at least one character, so fuel equal to the input length
always suffices. -/
def replaceAllGo (pat rep : List Char) : ℕ → List Char → List Char
  | 0, s => s
  | _ + 1, [] => []
  | fuel + 1, c :: rest =>
    if pat ≠ [] ∧ pat.isPrefixOf (c :: rest) then
      rep ++ replaceAllGo pat rep fuel ((c :: rest).drop pat.length)
    else
      c :: replaceAllGo pat rep fuel rest

/-- Python str.replace: replace every non-overlapping occurrence of pat,
scanning left to right (pat is nonempty for every call in the source). -/
def replaceAllL (pat rep s : List Char) : List Char :=
  replaceAllGo pat rep s.length s

/-- The forbidden_words list of DecisionCore.filter_narrative. -/
def forbidden_words : List String :=
  ["闭眼买", "主升浪", "强势拉升", "突破", "抄底", "黄金坑", "铁底"]

/-- The warning_prefix banner of DecisionCore.filter_narrative. -/
def warningBanner : String := "⚠️ 风险提示：存在否决因子。"

/-- The replacement loop of filter_narrative: for each forbidden word that
occurs, replace it with the marker [已过滤:word]. -/
def bullishFilter (narrative : List Char) : List Char :=
  forbidden_words.foldl
    (fun n w =>
      if listContains n w.toList then
        replaceAllL w.toList (("[已过滤:" ++ w ++ "]").toList) n
      else n)
    narrative

/-- DecisionCore.filter_narrative. -/
def filter_narrative (c : DecisionCore) (narrative : String) : String :=
  if !c.veto_active then narrative
  else warningBanner ++ String.mk (bullishFilter narrative.toList)

/-- GlobalRiskState of risk_control_enhanced.py (the singleton's mutable
fields); kill_timestamp stores the clock reading at activation. -/
structure GlobalRiskState where
  kill_switch_active : Bool
  kill_reason : String
  kill_timestamp : Option ℕ
  consecutive_losses : ℕ
  today_drawdown : ℚ
  account_drawdown : ℚ
  deriving DecidableEq, Repr

/-- The state installed by GlobalRiskState.__new__ on first construction. -/
def GlobalRiskState.fresh : GlobalRiskState :=
  { kill_switch_active := false, kill_reason := "", kill_timestamp := none,
    consecutive_losses := 0, today_drawdown := 0, account_drawdown := 0 }

/-- GlobalRiskState.activate_kill_switch (the print call is I/O only). -/
def activate_kill_switch (s : GlobalRiskState) (reason : String) (now : ℕ) :
    GlobalRiskState :=
  { s with kill_switch_active := true, kill_reason := reason,
           kill_timestamp := some now }

/-- GlobalRiskState.deactivate_kill_switch. -/
def deactivate_kill_switch (s : GlobalRiskState) : GlobalRiskState :=
  { s with kill_switch_active := false, kill_reason := "",
           kill_timestamp := none }

/-- GlobalRiskState.is_trading_allowed. -/
def is_trading_allowed (s : GlobalRiskState) : Bool × String :=
  if s.kill_switch_active then (false, "核按钮激活：" ++ s.kill_reason)
  else (true, "正常")

/-- GlobalRiskState.record_trade_result: a win resets consecutive_losses; a
loss increments it and trips the kill switch at two or more consecutive
losses.  pnl_pct is accepted and ignored exactly as in the source. -/
def record_trade_result (s : GlobalRiskState) (is_win : Bool) (pnl_pct : ℚ)
    (now : ℕ) : GlobalRiskState :=
  if is_win then { s with consecutive_losses := 0 }
  else
    let s' := { s with consecutive_losses := s.consecutive_losses + 1 }
    if 2 ≤ s'.consecutive_losses then
      activate_kill_switch s' ("连续亏损" ++ toString s'.consecutive_losses ++ "次") now
    else s'

/-! ### Helper lemmas about the decision core -/

theorem addJudgmentInput_judgments (c : DecisionCore) (j : JudgmentInput) :
    (addJudgmentInput c j).judgments = c.judgments ++ [j] := by
  simp only [addJudgmentInput, add_judgment]
  split <;> rfl

theorem addJudgmentInput_veto_mono (c : DecisionCore) (j : JudgmentInput)
    (h : c.veto_active = true) : (addJudgmentInput c j).veto_active = true := by
  simp only [addJudgmentInput, add_judgment]
  split <;> simp [h]

theorem addJudgmentInput_veto_of (c : DecisionCore) (j : JudgmentInput)
    (h : j.priority.isHigh && j.signal.isVetoClass) :
    (addJudgmentInput c j).veto_active = true := by
  simp only [addJudgmentInput, add_judgment]
  rw [if_pos h]

theorem foldl_addJudgmentInput_veto_mono (js : List JudgmentInput)
    (c : DecisionCore) (h : c.veto_active = true) :
    (js.foldl addJudgmentInput c).veto_active = true := by
  induction js generalizing c with
  | nil => exact h
  | cons k rest ih => exact ih _ (addJudgmentInput_veto_mono c k h)

theorem foldl_addJudgmentInput_veto_of_mem (js : List JudgmentInput)
    (c : DecisionCore) (j : JudgmentInput) (hj : j ∈ js)
    (hq : j.priority.isHigh && j.signal.isVetoClass) :
    (js.foldl addJudgmentInput c).veto_active = true := by
  induction js generalizing c with
  | nil => cases hj
  | cons k rest ih =>
    rcases List.mem_cons.mp hj with rfl | hmem
    · exact foldl_addJudgmentInput_veto_mono rest _ (addJudgmentInput_veto_of c j hq)
    · exact ih _ hmem

theorem foldl_addJudgmentInput_length (js : List JudgmentInput) (c : DecisionCore) :
    (js.foldl addJudgmentInput c).judgments.length = c.judgments.length + js.length := by
  induction js generalizing c with
  | nil => simp
  | cons k rest ih =>
    simp only [List.foldl_cons, ih, addJudgmentInput_judgments, List.length_append,
      List.length_cons]
    simp
    omega

theorem make_verdict_veto (c : DecisionCore) (now : ℕ)
    (hne : c.judgments ≠ []) (hv : c.veto_active = true) :
    (make_verdict c now).is_vetoed = true
    ∧ (make_verdict c now).action_class ≠ "go" := by
  rw [make_verdict, if_neg hne]
  simp only [hv, if_true]
  cases hfind : (sortJudgments c.judgments).find? (fun j => j.signal.isVetoClass) with
  | none => simp [hfind]
  | some j =>
    by_cases hs : j.signal = Signal.STRONG_SELL <;> simp [hfind, hs]

/-! ### Theorems for the claims about the decision core -/

/-- C1: Veto precedence — for every sequence of add_judgment calls on a fresh
DecisionCore containing at least one P0/P1/P2 judgment whose signal is
SELL, STRONG_SELL or VETO, the verdict from make_verdict has
is_vetoed = true and action_class different from go, no matter how many
P3/P4 BUY/STRONG_BUY judgments (of any confidence) the sequence also
contains. -/
theorem C1_veto_precedence (js : List JudgmentInput) (now : ℕ)
    (h : ∃ j ∈ js, j.priority.isHigh = true ∧ j.signal.isVetoClass = true) :
    (make_verdict (js.foldl addJudgmentInput DecisionCore.fresh) now).is_vetoed = true
    ∧ (make_verdict (js.foldl addJudgmentInput DecisionCore.fresh) now).action_class ≠ "go" := by
  obtain ⟨j, hj, hhigh, hveto⟩ := h
  have hne : (js.foldl addJudgmentInput DecisionCore.fresh).judgments ≠ [] := by
    have hlen := foldl_addJudgmentInput_length js DecisionCore.fresh
    intro habs
    rw [habs] at hlen
    have : js ≠ [] := fun h0 => by simp [h0] at hj
    have : 0 < js.length := List.length_pos.mpr this
    simp [DecisionCore.fresh] at hlen
    omega
  have hv : (js.foldl addJudgmentInput DecisionCore.fresh).veto_active = true :=
    foldl_addJudgmentInput_veto_of_mem js _ j hj (by rw [hhigh, hveto]; rfl)
  exact make_verdict_veto _ now hne hv

/-- C1 witness: a concrete sequence with one P2 SELL judgment and two P3 BUY
judgments at confidence 1. -/
theorem C1_veto_precedence_witness :
    (∃ j ∈ [(⟨Priority.P2_REALTIME_FUND, Signal.SELL, "主力流出", 8/10, "rt"⟩ : JudgmentInput),
            ⟨Priority.P3_TREND_CHIP, Signal.BUY, "趋势多头", 1, "trend"⟩,
            ⟨Priority.P3_TREND_CHIP, Signal.BUY, "评分高", 1, "score"⟩],
        j.priority.isHigh = true ∧ j.signal.isVetoClass = true)
    ∧ (make_verdict ([(⟨Priority.P2_REALTIME_FUND, Signal.SELL, "主力流出", 8/10, "rt"⟩ : JudgmentInput),
            ⟨Priority.P3_TREND_CHIP, Signal.BUY, "趋势多头", 1, "trend"⟩,
            ⟨Priority.P3_TREND_CHIP, Signal.BUY, "评分高", 1, "score"⟩].foldl
          addJudgmentInput DecisionCore.fresh) 0).is_vetoed = true
    ∧ (make_verdict ([(⟨Priority.P2_REALTIME_FUND, Signal.SELL, "主力流出", 8/10, "rt"⟩ : JudgmentInput),
            ⟨Priority.P3_TREND_CHIP, Signal.BUY, "趋势多头", 1, "trend"⟩,
            ⟨Priority.P3_TREND_CHIP, Signal.BUY, "评分高", 1, "score"⟩].foldl
          addJudgmentInput DecisionCore.fresh) 0).action_class ≠ "go" := by
  refine ⟨by decide, ?_, ?_⟩
  · exact (C1_veto_precedence _ 0 (by decide)).1
  · exact (C1_veto_precedence _ 0 (by decide)).2

/-- C2: Kill-switch trip and persistence — from any GlobalRiskState with the
kill switch off and zero consecutive losses, two losing
record_trade_result calls activate the kill switch and make
is_trading_allowed report false, and a further winning trade (with no
deactivate_kill_switch in between) leaves is_trading_allowed false: a win
resets the loss counter but never clears the switch. -/
theorem C2_kill_switch_persistence (s0 : GlobalRiskState)
    (h1 : s0.kill_switch_active = false) (h2 : s0.consecutive_losses = 0)
    (p1 p2 p3 : ℚ) (t1 t2 t3 : ℕ) :
    (record_trade_result (record_trade_result s0 false p1 t1) false p2 t2).kill_switch_active = true
    ∧ (is_trading_allowed
        (record_trade_result (record_trade_result s0 false p1 t1) false p2 t2)).1 = false
    ∧ (record_trade_result (record_trade_result (record_trade_result s0 false p1 t1)
        false p2 t2) true p3 t3).kill_switch_active = true
    ∧ (is_trading_allowed (record_trade_result (record_trade_result
        (record_trade_result s0 false p1 t1) false p2 t2) true p3 t3)).1 = false := by
  simp [record_trade_result, activate_kill_switch, is_trading_allowed, h2]

/-- C2 witness at the freshly constructed global state. -/
theorem C2_kill_switch_persistence_witness :
    (GlobalRiskState.fresh.kill_switch_active = false
      ∧ GlobalRiskState.fresh.consecutive_losses = 0)
    ∧ ((record_trade_result (record_trade_result GlobalRiskState.fresh false (-5/100) 1)
          false (-5/100) 2).kill_switch_active = true
      ∧ (is_trading_allowed (record_trade_result (record_trade_result GlobalRiskState.fresh
          false (-5/100) 1) false (-5/100) 2)).1 = false
      ∧ (record_trade_result (record_trade_result (record_trade_result GlobalRiskState.fresh
          false (-5/100) 1) false (-5/100) 2) true (4/100) 3).kill_switch_active = true
      ∧ (is_trading_allowed (record_trade_result (record_trade_result (record_trade_result
          GlobalRiskState.fresh false (-5/100) 1) false (-5/100) 2) true (4/100) 3)).1
          = false) :=
  ⟨⟨by decide, by decide⟩,
    C2_kill_switch_persistence GlobalRiskState.fresh (by decide) (by decide)
      (-5/100) (-5/100) (4/100) 1 2 3⟩

/-- The clock reading only enters the timestamp field of make_verdict. -/
theorem make_verdict_clock (c : DecisionCore) (t : ℕ) :
    make_verdict c t = { make_verdict c 0 with timestamp := t } := by
  simp only [make_verdict]
  by_cases hj : c.judgments = []
  · simp only [if_pos hj]
  · simp only [if_neg hj]
    by_cases hv : c.veto_active = true
    · simp only [if_pos hv]
      cases hfind : (sortJudgments c.judgments).find? (fun j => j.signal.isVetoClass) with
      | none => simp only [hfind]
      | some j =>
        simp only [hfind]
        by_cases hs : j.signal = Signal.STRONG_SELL
        · simp only [if_pos hs]
        · simp only [if_neg hs]
    · simp only [if_neg hv]
      by_cases hgo : buy_score (sortJudgments c.judgments) >
          sell_score (sortJudgments c.judgments) + 1/2
          ∧ 2 ≤ buy_signals (sortJudgments c.judgments)
      · simp only [if_pos hgo]
      · simp only [if_neg hgo]
        by_cases hw : sell_score (sortJudgments c.judgments) >
            buy_score (sortJudgments c.judgments) + 3/10
            ∨ 2 ≤ sell_signals (sortJudgments c.judgments)
        · simp only [if_pos hw]
        · simp only [if_neg hw]

section
attribute [local semireducible] Rat.add Rat.mul Rat.sub Rat.inv

/-- C4 counterexample: two make_verdict invocations over the same judgment
set, at the successive clock readings the two datetime.now() calls return,
give verdicts that are not equal — the timestamp field differs. -/
theorem C4_counterexample :
    make_verdict (addJudgmentInput DecisionCore.fresh
        ⟨Priority.P3_TREND_CHIP, Signal.BUY, "评分高", 3/5, "score"⟩) 0
    ≠ make_verdict (addJudgmentInput DecisionCore.fresh
        ⟨Priority.P3_TREND_CHIP, Signal.BUY, "评分高", 3/5, "score"⟩) 1 := by
  decide

end

/-- C4 amended: make_verdict is deterministic in every field except
timestamp — two invocations over the same judgment set and veto state agree
on action, action_class, confidence, primary_reason, veto_reasons,
all_inputs and is_vetoed; the timestamp field carries the clock reading of
the respective call. -/
theorem C4_idempotence_amended (c : DecisionCore) (t1 t2 : ℕ) :
    (make_verdict c t1).action = (make_verdict c t2).action
    ∧ (make_verdict c t1).action_class = (make_verdict c t2).action_class
    ∧ (make_verdict c t1).confidence = (make_verdict c t2).confidence
    ∧ (make_verdict c t1).primary_reason = (make_verdict c t2).primary_reason
    ∧ (make_verdict c t1).veto_reasons = (make_verdict c t2).veto_reasons
    ∧ (make_verdict c t1).all_inputs = (make_verdict c t2).all_inputs
    ∧ (make_verdict c t1).is_vetoed = (make_verdict c t2).is_vetoed
    ∧ (make_verdict c t1).timestamp = t1
    ∧ (make_verdict c t2).timestamp = t2 := by
  rw [make_verdict_clock c t1, make_verdict_clock c t2]
  simp

theorem sortJudgments_perm (l : List JudgmentInput) :
    List.Perm (sortJudgments l) l :=
  List.perm_insertionSort _ l

theorem buy_score_sortJudgments (l : List JudgmentInput) :
    buy_score (sortJudgments l) = buy_score l :=
  List.Perm.sum_eq (List.Perm.map _ (sortJudgments_perm l))

theorem sell_score_sortJudgments (l : List JudgmentInput) :
    sell_score (sortJudgments l) = sell_score l :=
  List.Perm.sum_eq (List.Perm.map _ (sortJudgments_perm l))

theorem buy_signals_sortJudgments (l : List JudgmentInput) :
    buy_signals (sortJudgments l) = buy_signals l :=
  List.Perm.length_eq (List.Perm.filter _ (sortJudgments_perm l))

theorem sell_signals_sortJudgments (l : List JudgmentInput) :
    sell_signals (sortJudgments l) = sell_signals l :=
  List.Perm.length_eq (List.Perm.filter _ (sortJudgments_perm l))

theorem buy_score_nonneg (l : List JudgmentInput)
    (h0 : ∀ j ∈ l, 0 ≤ j.confidence) : 0 ≤ buy_score l := by
  unfold buy_score
  apply List.sum_nonneg
  intro x hx
  simp only [List.mem_map] at hx
  obtain ⟨j, hj, rfl⟩ := hx
  split
  · have hc := h0 j hj
    have hw : 0 ≤ weightOf j := by
      unfold weightOf
      positivity
    exact mul_nonneg hw hc
  · exact le_refl 0

theorem sell_score_nonneg (l : List JudgmentInput)
    (h0 : ∀ j ∈ l, 0 ≤ j.confidence) : 0 ≤ sell_score l := by
  unfold sell_score
  apply List.sum_nonneg
  intro x hx
  simp only [List.mem_map] at hx
  obtain ⟨j, hj, rfl⟩ := hx
  split
  · have hc := h0 j hj
    have hw : 0 ≤ weightOf j := by
      unfold weightOf
      positivity
    exact mul_nonneg hw hc
  · exact le_refl 0

/-- C10: For every judgment list whose confidences lie in the unit interval,
the confidence of the verdict produced by make_verdict lies in the unit
interval: every branch yields 0.5, 0.7, 0.9, or a nonnegative tally capped
at 1. -/
theorem C10_verdict_confidence_bounds (c : DecisionCore) (now : ℕ)
    (h : ∀ j ∈ c.judgments, 0 ≤ j.confidence ∧ j.confidence ≤ 1) :
    0 ≤ (make_verdict c now).confidence ∧ (make_verdict c now).confidence ≤ 1 := by
  have hmem : ∀ j ∈ sortJudgments c.judgments, 0 ≤ j.confidence := by
    intro j hj
    exact (h j ((sortJudgments_perm c.judgments).subset hj)).1
  have hb : 0 ≤ buy_score (sortJudgments c.judgments) := buy_score_nonneg _ hmem
  have hs : 0 ≤ sell_score (sortJudgments c.judgments) := sell_score_nonneg _ hmem
  simp only [make_verdict]
  by_cases hj : c.judgments = []
  · simp only [if_pos hj]
    norm_num
  · simp only [if_neg hj]
    by_cases hv : c.veto_active = true
    · simp only [if_pos hv]
      cases hfind : (sortJudgments c.judgments).find? (fun j => j.signal.isVetoClass) with
      | none => simp only [hfind]; norm_num
      | some j =>
        simp only [hfind]
        by_cases hss : j.signal = Signal.STRONG_SELL
        · simp only [if_pos hss]; norm_num
        · simp only [if_neg hss]; norm_num
    · simp only [if_neg hv]
      by_cases hgo : buy_score (sortJudgments c.judgments) >
          sell_score (sortJudgments c.judgments) + 1/2
          ∧ 2 ≤ buy_signals (sortJudgments c.judgments)
      · simp only [if_pos hgo]
        exact ⟨le_min hb (by norm_num), min_le_right _ _⟩
      · simp only [if_neg hgo]
        by_cases hw : sell_score (sortJudgments c.judgments) >
            buy_score (sortJudgments c.judgments) + 3/10
            ∨ 2 ≤ sell_signals (sortJudgments c.judgments)
        · simp only [if_pos hw]
          exact ⟨le_min hs (by norm_num), min_le_right _ _⟩
        · simp only [if_neg hw]
          norm_num

/-- C10 witness: a concrete judgment list with confidences in the unit
interval. -/
theorem C10_verdict_confidence_bounds_witness :
    (∀ j ∈ (addJudgmentInput DecisionCore.fresh
        ⟨Priority.P3_TREND_CHIP, Signal.BUY, "评分高", 1/2, "score"⟩).judgments,
      0 ≤ j.confidence ∧ j.confidence ≤ 1)
    ∧ (0 ≤ (make_verdict (addJudgmentInput DecisionCore.fresh
        ⟨Priority.P3_TREND_CHIP, Signal.BUY, "评分高", 1/2, "score"⟩) 0).confidence
      ∧ (make_verdict (addJudgmentInput DecisionCore.fresh
        ⟨Priority.P3_TREND_CHIP, Signal.BUY, "评分高", 1/2, "score"⟩) 0).confidence ≤ 1) :=
  ⟨by
    intro j hj
    simp only [addJudgmentInput, add_judgment, DecisionCore.fresh] at hj
    simp only [List.nil_append] at hj
    rw [if_neg (by decide)] at hj
    simp only [List.mem_singleton] at hj
    subst hj
    norm_num,
   C10_verdict_confidence_bounds _ 0 (by
    intro j hj
    simp only [addJudgmentInput, add_judgment, DecisionCore.fresh] at hj
    simp only [List.nil_append] at hj
    rw [if_neg (by decide)] at hj
    simp only [List.mem_singleton] at hj
    subst hj
    norm_num)⟩

section
attribute [local semireducible] Rat.add Rat.mul Rat.sub Rat.inv

/-- C7 counterexample: with two P3 BUY judgments at confidence 1 (no veto),
the weighted buy tally is exactly 0.5 above the sell tally and two
BUY-class judgments are present, yet make_verdict classes the verdict
watch, not go — the claimed characterisation (margin of at least 0.5)
fails at the boundary, because the code requires a strictly larger margin. -/
theorem C7_counterexample :
    ¬(((make_verdict (addJudgmentInput (addJudgmentInput DecisionCore.fresh
          ⟨Priority.P3_TREND_CHIP, Signal.BUY, "趋势多头", 1, "trend"⟩)
          ⟨Priority.P3_TREND_CHIP, Signal.BUY, "评分高", 1, "score"⟩) 0).action_class = "go")
      ↔ (buy_score (addJudgmentInput (addJudgmentInput DecisionCore.fresh
            ⟨Priority.P3_TREND_CHIP, Signal.BUY, "趋势多头", 1, "trend"⟩)
            ⟨Priority.P3_TREND_CHIP, Signal.BUY, "评分高", 1, "score"⟩).judgments
          ≥ sell_score (addJudgmentInput (addJudgmentInput DecisionCore.fresh
            ⟨Priority.P3_TREND_CHIP, Signal.BUY, "趋势多头", 1, "trend"⟩)
            ⟨Priority.P3_TREND_CHIP, Signal.BUY, "评分高", 1, "score"⟩).judgments + 1/2
          ∧ 2 ≤ buy_signals (addJudgmentInput (addJudgmentInput DecisionCore.fresh
            ⟨Priority.P3_TREND_CHIP, Signal.BUY, "趋势多头", 1, "trend"⟩)
            ⟨Priority.P3_TREND_CHIP, Signal.BUY, "评分高", 1, "score"⟩).judgments)) := by
  decide

end

/-- C7 amended: when no veto is active the verdict is classed go exactly
when the weighted buy tally strictly exceeds the sell tally by more than
0.5 and at least two BUY-class judgments are present; whenever that test
fails the class is watch, and when additionally neither the sell tally
strictly exceeds the buy tally by more than 0.3 nor two SELL-class
judgments are present (and some judgment exists), the primary reason is the
insufficient/mixed-signal message. -/
theorem C7_action_derivation (c : DecisionCore) (now : ℕ)
    (hv : c.veto_active = false) :
    ((make_verdict c now).action_class = "go"
      ↔ (buy_score c.judgments > sell_score c.judgments + 1/2
          ∧ 2 ≤ buy_signals c.judgments))
    ∧ (¬(buy_score c.judgments > sell_score c.judgments + 1/2
          ∧ 2 ≤ buy_signals c.judgments) →
        (make_verdict c now).action_class = "watch")
    ∧ (c.judgments ≠ [] →
        ¬(buy_score c.judgments > sell_score c.judgments + 1/2
          ∧ 2 ≤ buy_signals c.judgments) →
        ¬(sell_score c.judgments > buy_score c.judgments + 3/10
          ∨ 2 ≤ sell_signals c.judgments) →
        (make_verdict c now).primary_reason = "信号不足或混合，需耐心等待") := by
  have hv' : ¬(c.veto_active = true) := by simp [hv]
  by_cases hj : c.judgments = []
  · refine ⟨?_, ?_, ?_⟩
    · simp [make_verdict, if_pos hj, hj, buy_score, sell_score, buy_signals]
    · intro _
      simp [make_verdict, if_pos hj]
    · intro hne
      exact absurd hj hne
  · have hb := buy_score_sortJudgments c.judgments
    have hs := sell_score_sortJudgments c.judgments
    have hnb := buy_signals_sortJudgments c.judgments
    have hns := sell_signals_sortJudgments c.judgments
    simp only [make_verdict, if_neg hj, if_neg hv']
    rw [hb, hs, hnb, hns]
    by_cases hgo : buy_score c.judgments > sell_score c.judgments + 1/2
        ∧ 2 ≤ buy_signals c.judgments
    · simp only [if_pos hgo]
      exact ⟨iff_of_true trivial hgo, fun habs => absurd hgo habs, fun _ habs => absurd hgo habs⟩
    · simp only [if_neg hgo]
      by_cases hw : sell_score c.judgments > buy_score c.judgments + 3/10
          ∨ 2 ≤ sell_signals c.judgments
      · simp only [if_pos hw]
        exact ⟨iff_of_false (by decide) hgo, fun _ => trivial, fun _ _ habs => absurd hw habs⟩
      · simp only [if_neg hw]
        exact ⟨iff_of_false (by decide) hgo, fun _ => trivial, fun _ _ _ => trivial⟩

/-- C7 witness: three P3 BUY judgments at confidence 1 on a veto-free core
satisfy the strict margin test and are classed go. -/
theorem C7_action_derivation_witness :
    ((addJudgmentInput (addJudgmentInput (addJudgmentInput DecisionCore.fresh
        ⟨Priority.P3_TREND_CHIP, Signal.BUY, "趋势多头", 1, "trend"⟩)
        ⟨Priority.P3_TREND_CHIP, Signal.BUY, "评分高", 1, "score"⟩)
        ⟨Priority.P3_TREND_CHIP, Signal.BUY, "筹码集中", 1, "chip"⟩).veto_active = false)
    ∧ (((make_verdict (addJudgmentInput (addJudgmentInput (addJudgmentInput DecisionCore.fresh
        ⟨Priority.P3_TREND_CHIP, Signal.BUY, "趋势多头", 1, "trend"⟩)
        ⟨Priority.P3_TREND_CHIP, Signal.BUY, "评分高", 1, "score"⟩)
        ⟨Priority.P3_TREND_CHIP, Signal.BUY, "筹码集中", 1, "chip"⟩) 7).action_class = "go")
      ↔ (buy_score (addJudgmentInput (addJudgmentInput (addJudgmentInput DecisionCore.fresh
          ⟨Priority.P3_TREND_CHIP, Signal.BUY, "趋势多头", 1, "trend"⟩)
          ⟨Priority.P3_TREND_CHIP, Signal.BUY, "评分高", 1, "score"⟩)
          ⟨Priority.P3_TREND_CHIP, Signal.BUY, "筹码集中", 1, "chip"⟩).judgments
        > sell_score (addJudgmentInput (addJudgmentInput (addJudgmentInput DecisionCore.fresh
          ⟨Priority.P3_TREND_CHIP, Signal.BUY, "趋势多头", 1, "trend"⟩)
          ⟨Priority.P3_TREND_CHIP, Signal.BUY, "评分高", 1, "score"⟩)
          ⟨Priority.P3_TREND_CHIP, Signal.BUY, "筹码集中", 1, "chip"⟩).judgments + 1/2
        ∧ 2 ≤ buy_signals (addJudgmentInput (addJudgmentInput (addJudgmentInput DecisionCore.fresh
          ⟨Priority.P3_TREND_CHIP, Signal.BUY, "趋势多头", 1, "trend"⟩)
          ⟨Priority.P3_TREND_CHIP, Signal.BUY, "评分高", 1, "score"⟩)
          ⟨Priority.P3_TREND_CHIP, Signal.BUY, "筹码集中", 1, "chip"⟩).judgments)) :=
  ⟨by decide,
   (C7_action_derivation (addJudgmentInput (addJudgmentInput (addJudgmentInput DecisionCore.fresh
      ⟨Priority.P3_TREND_CHIP, Signal.BUY, "趋势多头", 1, "trend"⟩)
      ⟨Priority.P3_TREND_CHIP, Signal.BUY, "评分高", 1, "score"⟩)
      ⟨Priority.P3_TREND_CHIP, Signal.BUY, "筹码集中", 1, "chip"⟩) 7 (by decide)).1⟩

section
attribute [local semireducible] Rat.add Rat.mul Rat.sub Rat.inv

/-- C9 counterexample: with the veto flag set, filtering the narrative
技术面突破 yields the banner followed by 技术面[已过滤:突破] — the forbidden
term 突破 still occurs in the output (inside the risk marker), so the
claimed property that no term from the bullish-word list occurs in the
filtered text is false. -/
theorem C9_counterexample :
    (add_judgment DecisionCore.fresh Priority.P0_ACCOUNT_RISK Signal.VETO
        "核按钮激活" 1 "global_risk").veto_active = true
    ∧ listContains (filter_narrative
        (add_judgment DecisionCore.fresh Priority.P0_ACCOUNT_RISK Signal.VETO
          "核按钮激活" 1 "global_risk") "技术面突破").toList ("突破".toList) = true := by
  constructor
  · decide
  · decide

end

/-- C9 amended: when the veto flag is set, filter_narrative returns the
risk-warning banner followed by the narrative with each forbidden bullish
term replaced by its risk marker [已过滤:term] (the marker quotes the term,
so the term still occurs inside markers); in particular the banner is a
prefix of the output.  When the veto flag is not set the narrative is
returned unchanged. -/
theorem C9_narrative_filtering (c : DecisionCore) (narrative : String) :
    (c.veto_active = true →
      filter_narrative c narrative
        = warningBanner ++ String.mk (bullishFilter narrative.toList)
      ∧ warningBanner.toList <+: (filter_narrative c narrative).toList)
    ∧ (c.veto_active = false → filter_narrative c narrative = narrative) := by
  constructor
  · intro hv
    have he : filter_narrative c narrative
        = warningBanner ++ String.mk (bullishFilter narrative.toList) := by
      unfold filter_narrative
      rw [hv]
      rfl
    refine ⟨he, ?_⟩
    rw [he]
    show warningBanner.data <+: (warningBanner ++ String.mk (bullishFilter narrative.toList)).data
    rw [String.data_append]
    exact List.prefix_append _ _
  · intro hv
    unfold filter_narrative
    rw [hv]
    rfl

/-- C9 witness: concrete instantiations at a vetoed core and at a fresh
(non-vetoed) core. -/
theorem C9_narrative_filtering_witness :
    (filter_narrative
        (add_judgment DecisionCore.fresh Priority.P2_REALTIME_FUND Signal.SELL
          "主力流出" 1 "rt") "看好后市"
      = warningBanner ++ String.mk (bullishFilter ("看好后市".toList))
      ∧ warningBanner.toList <+: (filter_narrative
          (add_judgment DecisionCore.fresh Priority.P2_REALTIME_FUND Signal.SELL
            "主力流出" 1 "rt") "看好后市").toList)
    ∧ filter_narrative DecisionCore.fresh "看好后市" = "看好后市" :=
  ⟨(C9_narrative_filtering
      (add_judgment DecisionCore.fresh Priority.P2_REALTIME_FUND Signal.SELL
        "主力流出" 1 "rt") "看好后市").1 (by decide),
   (C9_narrative_filtering DecisionCore.fresh "看好后市").2 (by decide)⟩

/-! ### Factor fusion engine (factor_engine_v9.py)

Python floats become exact rationals.  numpy standard deviations are
irrational square roots; every use in the source only compares values
against the standard deviation, so each comparison is embedded by its
square (with the sign analysed first), which is an exact equivalence over
the reals.  Python round(x, n) is embedded as exact rational rounding to n
decimal places with ties to even.  The module-global CURRENT_REGIME is
passed explicitly as an argument. -/

/-- MarketRegime enum of factor_engine_v9.py. -/
inductive MarketRegime
  | BULL
  | BEAR
  | SHOCK
  deriving DecidableEq, Repr

/-- A map from the six factor categories to rationals (the weight dicts). -/
structure WeightMap where
  trend : ℚ
  volume : ℚ
  position : ℚ
  chip : ℚ
  money : ℚ
  market : ℚ
  deriving DecidableEq, Repr

/-- BASE_WEIGHTS of factor_engine_v9.py. -/
def BASE_WEIGHTS : WeightMap :=
  { trend := 18/100, volume := 15/100, position := 10/100,
    chip := 17/100, money := 25/100, market := 15/100 }

/-- REGIME_ADJUSTMENTS of factor_engine_v9.py, with multiplier 1 for the
categories a regime leaves untouched. -/
def REGIME_ADJUSTMENTS : MarketRegime → WeightMap
  | .BULL => { trend := 13/10, volume := 1, position := 7/10,
               chip := 8/10, money := 12/10, market := 1 }
  | .BEAR => { trend := 6/10, volume := 1, position := 13/10,
               chip := 12/10, money := 15/10, market := 1 }
  | .SHOCK => { trend := 1, volume := 12/10, position := 1,
                chip := 11/10, money := 13/10, market := 1 }

/-- Sum of the six weights (Python sum(weights.values())). -/
def WeightMap.total (w : WeightMap) : ℚ :=
  w.trend + w.volume + w.position + w.chip + w.money + w.market

/-- get_adjusted_weights: multiply the base weights by the active regime's
multipliers, then renormalize by the total. -/
def get_adjusted_weights (regime : MarketRegime) : WeightMap :=
  let adj := REGIME_ADJUSTMENTS regime
  let w : WeightMap :=
    { trend := BASE_WEIGHTS.trend * adj.trend,
      volume := BASE_WEIGHTS.volume * adj.volume,
      position := BASE_WEIGHTS.position * adj.position,
      chip := BASE_WEIGHTS.chip * adj.chip,
      money := BASE_WEIGHTS.money * adj.money,
      market := BASE_WEIGHTS.market * adj.market }
  let total := w.total
  { trend := w.trend / total, volume := w.volume / total,
    position := w.position / total, chip := w.chip / total,
    money := w.money / total, market := w.market / total }

/-- One daily bar; only the keys close, vol and change_pct are read by the
embedded functions. -/
structure Bar where
  close : ℚ
  vol : ℚ
  change_pct : ℚ
  deriving DecidableEq, Repr

/-- One money-flow record (key main_net_inflow, with the source's
"or 0" None-coalescing folded into the rational value). -/
structure FlowRecord where
  main_net_inflow : ℚ
  deriving DecidableEq, Repr

/-- A non-empty cyq_data dict: valid flag, winner_rate, avg_cost.
avg_cost = 0 models both a missing key and a stored zero, which the source
coalesces identically via (get("avg_cost", price) or price). -/
structure ChipData where
  valid : Bool
  winner_rate : ℚ
  avg_cost : ℚ
  deriving DecidableEq, Repr

/-- One realtime_fund dict (keys valid and main_net). -/
structure RealtimeFund where
  valid : Bool
  main_net : ℚ
  deriving DecidableEq, Repr

/-- Python l[-n:] (the last n elements; the whole list when n exceeds the
length). -/
def lastN (l : List ℚ) (n : ℕ) : List ℚ :=
  l.drop (l.length - n)

/-- Python max over a nonempty list (head default for the empty list). -/
def listMax (l : List ℚ) : ℚ :=
  l.foldl max (l.headD 0)

/-- Python min over a nonempty list (head default for the empty list). -/
def listMin (l : List ℚ) : ℚ :=
  l.foldl min (l.headD 0)

/-- numpy diff: consecutive differences a[i+1] - a[i]. -/
def listDiffs : List ℚ → List ℚ
  | [] => []
  | [_] => []
  | a :: b :: rest => (b - a) :: listDiffs (b :: rest)

/-- Population variance, the square of numpy std. -/
def popVar (l : List ℚ) : ℚ :=
  if l.length = 0 then 0
  else
    let m := l.sum / l.length
    ((l.map (fun x => (x - m) ^ 2)).sum) / l.length

/-- Python round(x, 1) idealised over the rationals (ties to even). -/
def roundTenths (q : ℚ) : ℚ :=
  let n : ℤ := ⌊q * 10⌋
  let r : ℚ := q * 10 - n
  if r < 1/2 then (n : ℚ) / 10
  else if r > 1/2 then ((n : ℚ) + 1) / 10
  else if n % 2 = 0 then (n : ℚ) / 10 else ((n : ℚ) + 1) / 10

/-- Python round(x, 2) idealised over the rationals (ties to even). -/
def roundHundredths (q : ℚ) : ℚ :=
  let n : ℤ := ⌊q * 100⌋
  let r : ℚ := q * 100 - n
  if r < 1/2 then (n : ℚ) / 100
  else if r > 1/2 then ((n : ℚ) + 1) / 100
  else if n % 2 = 0 then (n : ℚ) / 100 else ((n : ℚ) + 1) / 100

/-- The Python substring test pat in s, on strings. -/
def hasSub (s pat : String) : Bool :=
  listContains s.toList pat.toList

/-- calc_ma of factor_engine_v9.py. -/
def calc_ma (prices : List ℚ) (period : ℕ) : ℚ :=
  if prices.length < period then 0
  else (lastN prices period).sum / period

/-- factor_ma_alignment.  The label strings are discarded by
calculate_v9_score. -/
def factor_ma_alignment (daily : List Bar) : ℚ × String :=
  if daily.length < 60 then (50, "数据不足")
  else
    let closes := (daily.map (·.close)).reverse
    let ma5 := calc_ma closes 5
    let ma10 := calc_ma closes 10
    let ma20 := calc_ma closes 20
    let ma60 := calc_ma closes 60
    if ma5 > ma10 ∧ ma10 > ma20 ∧ ma20 > ma60 then (95, "完美多头")
    else if ma5 > ma10 ∧ ma10 > ma20 then (80, "中期多头")
    else if ma5 > ma10 then (65, "短期向上")
    else if ma5 < ma10 ∧ ma10 < ma20 ∧ ma20 < ma60 then (10, "空头排列")
    else if ma5 < ma10 ∧ ma10 < ma20 then (25, "中期空头")
    else if ma5 < ma10 then (40, "短期走弱")
    else (50, "盘整")

/-- factor_momentum. -/
def factor_momentum (daily : List Bar) : ℚ × String :=
  if daily.length < 20 then (50, "数据不足")
  else
    let closes := daily.map (·.close)
    let roc5 := if closes.getD 4 0 > 0
      then (closes.getD 0 0 - closes.getD 4 0) / closes.getD 4 0 * 100 else 0
    let roc10 := if closes.getD 9 0 > 0
      then (closes.getD 0 0 - closes.getD 9 0) / closes.getD 9 0 * 100 else 0
    let momentum := roc5 * (6/10) + roc10 * (4/10)
    let score := max 0 (min 100 (50 + momentum * 3))
    if momentum > 5 then (score, "强势上涨")
    else if momentum > 0 then (score, "温和上涨")
    else if momentum > -5 then (score, "温和下跌")
    else (score, "急跌")

/-- factor_position.  The drawdown used in the low-position label divides by
the 60-day high unconditionally, so a zero high (possible only with
non-positive prices) raises ZeroDivisionError in the source; the embedding
returns none there, which the caller's except-handler turns into the
neutral result.  Label strings are discarded by the caller. -/
def factor_position (daily : List Bar) : Option (ℚ × String) :=
  if daily.length < 60 then some (50, "数据不足")
  else
    let closes := (daily.take 60).map (·.close)
    let current := closes.getD 0 0
    let high60 := listMax closes
    let low60 := listMin closes
    if high60 ≤ low60 then some (50, "异常")
    else
      let position_pct := (current - low60) / (high60 - low60) * 100
      let score := 100 - position_pct
      if high60 = 0 then none
      else
        if position_pct < 20 then some (score, "深度低位")
        else if position_pct < 40 then some (score, "相对低位")
        else if position_pct < 60 then some (score, "中位区间")
        else if position_pct < 80 then some (score, "相对高位")
        else some (score, "历史高位")

/-- factor_volume_ratio.  The numeric suffixes of the labels are dropped;
the caller discards the label. -/
def factor_volume_ratio (daily : List Bar) : ℚ × String :=
  if daily.length < 10 then (50, "数据不足")
  else
    let volumes := daily.map (·.vol)
    let current := volumes.getD 0 0
    let avg5 := if volumes.length ≥ 6
      then ((volumes.drop 1).take 5).sum / 5 else volumes.getD 0 0
    if avg5 ≤ 0 then (50, "异常")
    else
      let ratio := current / avg5
      if ratio ≥ 3 then (95, "巨量")
      else if ratio ≥ 2 then (85, "显著放量")
      else if ratio ≥ 3/2 then (75, "明显放量")
      else if ratio ≥ 1 then (60, "温和放量")
      else if ratio ≥ 7/10 then (45, "轻微缩量")
      else (25, "极度缩量")

/-- One iteration of the factor_volume_pattern loop: none when the older
close is zero (ZeroDivisionError in the source); otherwise the score
increment and, for reporting, the signal this iteration would append. -/
def volumePatternStep (b0 b1 : Bar) : Option (ℚ × Option String) :=
  if b1.close = 0 then none
  else
    let p_chg := (b0.close - b1.close) / b1.close * 100
    let v_chg := if b1.vol > 0 then (b0.vol - b1.vol) / b1.vol * 100 else 0
    if p_chg > 0 ∧ v_chg > 10 then some (10, some "价涨量增")
    else if p_chg > 0 ∧ v_chg < -10 then some (-5, some "价涨量缩")
    else if p_chg < 0 ∧ v_chg < -10 then some (5, some "缩量下跌")
    else some (0, none)

/-- factor_volume_pattern: three loop iterations over adjacent bars; only
the first iteration may record a signal string. -/
def factor_volume_pattern (daily : List Bar) : Option (ℚ × String) :=
  if daily.length < 5 then some (50, "数据不足")
  else do
    let r0 ← volumePatternStep (daily.getD 0 ⟨0, 0, 0⟩) (daily.getD 1 ⟨0, 0, 0⟩)
    let r1 ← volumePatternStep (daily.getD 1 ⟨0, 0, 0⟩) (daily.getD 2 ⟨0, 0, 0⟩)
    let r2 ← volumePatternStep (daily.getD 2 ⟨0, 0, 0⟩) (daily.getD 3 ⟨0, 0, 0⟩)
    let score := 50 + r0.1 + r1.1 + r2.1
    let sig := match r0.2 with
      | some s0 => s0
      | none => "量价平淡"
    some (max 0 (min 100 score), sig)

/-- factor_chip_profit.  The numeric suffixes of the labels are dropped;
the caller discards the label. -/
def factor_chip_profit (cyq_data : Option ChipData) : ℚ × String :=
  match cyq_data with
  | none => (50, "无数据")
  | some c =>
    if c.valid = false then (50, "无数据")
    else
      let winner := c.winner_rate
      if winner ≥ 90 then (90, "主力控盘")
      else if winner ≥ 70 then (75, "获利盘高")
      else if winner ≥ 40 then (55, "多空平衡")
      else if winner ≥ 15 then (35, "套牢较多")
      else (50, "超跌区域")

/-- The consecutive-positive-inflow counter of factor_main_flow (breaks at
the first non-positive record). -/
def countLeadingInflow : List FlowRecord → ℕ
  | [] => 0
  | f :: rest => if f.main_net_inflow > 0 then countLeadingInflow rest + 1 else 0

/-- factor_main_flow.  The numeric suffixes of the labels are dropped; the
caller discards the label. -/
def factor_main_flow (money_flow : List FlowRecord) : ℚ × String :=
  if money_flow.length < 3 then (50, "数据不足")
  else
    let flow3d := ((money_flow.take 3).map (·.main_net_inflow)).sum
    let consecutive := countLeadingInflow (money_flow.take 3)
    let score1 : ℚ :=
      if flow3d > 5000 then 50 + 35
      else if flow3d > 2000 then 50 + 25
      else if flow3d > 0 then 50 + 10
      else if flow3d > -2000 then 50 - 10
      else 50 - 25
    let score2 := if consecutive ≥ 3 then score1 + 15 else score1
    let sig :=
      if flow3d > 5000 then (if consecutive ≥ 3 then "3日流入 连续流入" else "3日流入")
      else if flow3d ≤ -2000 then (if consecutive ≥ 3 then "3日流出 连续流入" else "3日流出")
      else if consecutive ≥ 3 then "连续流入"
      else "资金观望"
    (max 0 (min 100 score2), sig)

/-- factor_market_sync. -/
def factor_market_sync (daily market : List Bar) : ℚ × String :=
  if daily.length < 5 ∨ market.length < 5 then (50, "数据不足")
  else
    let stock_ret := ((daily.take 5).map (·.change_pct)).sum
    let market_ret := ((market.take 5).map (·.change_pct)).sum
    let alpha := stock_ret - market_ret
    let score := max 0 (min 100 (50 + alpha * 5))
    if alpha > 3 then (score, "跑赢大盘")
    else if alpha > 0 then (score, "略强于盘")
    else if alpha > -3 then (score, "略弱于盘")
    else (score, "跑输大盘")

/-- calculate_rsi (the standard-method fix): mean gain over mean loss on the
last period+1 prices, with 0.001 substituted for an absent loss. -/
def calculate_rsi (prices : List ℚ) (period : ℕ := 14) : ℚ × String :=
  if prices.length < period + 1 then (50, "数据不足")
  else
    let deltas := listDiffs (lastN prices (period + 1))
    let gains := deltas.filter (fun d => d > 0)
    let losses := (deltas.filter (fun d => d < 0)).map (fun d => -d)
    let avg_gain := if gains.length > 0 then gains.sum / gains.length else 0
    let avg_loss := if losses.length > 0 then losses.sum / losses.length else 1/1000
    if avg_loss = 0 then (100, "极度超买")
    else
      let rs := avg_gain / avg_loss
      let rsi := 100 - 100 / (1 + rs)
      let sig :=
        if rsi > 80 then "严重超买"
        else if rsi > 70 then "超买"
        else if rsi < 20 then "严重超卖"
        else if rsi < 30 then "超卖"
        else "中性"
      (roundHundredths rsi, sig)

/-- The tail of the exponential moving average of calculate_macd. -/
def emaAux (alpha prev : ℚ) : List ℚ → List ℚ
  | [] => []
  | p :: ps =>
    let v := p * alpha + prev * (1 - alpha)
    v :: emaAux alpha v ps

/-- The local ema helper of calculate_macd. -/
def emaList (data : List ℚ) (period : ℕ) : List ℚ :=
  match data with
  | [] => []
  | d :: ds => d :: emaAux (2 / ((period : ℚ) + 1)) d ds

/-- calculate_macd. -/
def calculate_macd (prices : List ℚ) (fast : ℕ := 12) (slow : ℕ := 26)
    (signalPeriod : ℕ := 9) : ℚ × ℚ × String :=
  if prices.length < slow + signalPeriod then (0, 0, "数据不足")
  else
    let prices_array := lastN prices (slow + signalPeriod)
    let ema_fast := emaList prices_array fast
    let ema_slow := emaList prices_array slow
    let macd_line := List.zipWith (fun f s => f - s) ema_fast ema_slow
    let signal_line := emaList macd_line signalPeriod
    let current_macd := macd_line.getLastD 0
    let current_signal := signal_line.getLastD 0
    let histogram := current_macd - current_signal
    let prev_macd := if macd_line.length > 1
      then macd_line.getD (macd_line.length - 2) 0 else current_macd
    let prev_signal := if signal_line.length > 1
      then signal_line.getD (signal_line.length - 2) 0 else current_signal
    if prev_macd ≤ prev_signal ∧ current_macd > current_signal then
      (current_macd, current_signal, "金叉买入")
    else if prev_macd ≥ prev_signal ∧ current_macd < current_signal then
      (current_macd, current_signal, "死叉卖出")
    else if histogram > 0 then (current_macd, current_signal, "多头")
    else (current_macd, current_signal, "空头")

/-- The signal of calculate_bollinger_bands.  With s the numpy standard
deviation (the square root of popVar) and middle the 20-day mean, the
source's comparisons translate exactly: current above upper iff
current > middle and (current-middle)^2 > 4 var; below lower symmetrically;
band width below 5 iff middle > 0 and 6400 var < middle^2 (for middle < 0
the float band width is non-positive and the test holds; for middle = 0 it
is inf or nan and fails); position above 80 iff var > 0, current > middle
and 25 (current-middle)^2 > 36 var, below 20 symmetrically (var = 0 sets
position to 50).  The numeric bands returned by the source are unused by
calculate_v9_score. -/
def calculate_bollinger_signal (prices : List ℚ) (period : ℕ := 20) : String :=
  if prices.length < period then "数据不足"
  else
    let recent := lastN prices period
    let middle := recent.sum / period
    let var := popVar recent
    let current := prices.getLastD 0
    if current > middle ∧ (current - middle) ^ 2 > 4 * var then "触顶回调"
    else if current < middle ∧ (middle - current) ^ 2 > 4 * var then "触底反弹"
    else if (0 < middle ∧ 6400 * var < middle ^ 2) ∨ middle < 0 then "带宽收窄"
    else if var ≠ 0 ∧ current > middle ∧ 25 * (current - middle) ^ 2 > 36 * var then "接近上轨"
    else if var ≠ 0 ∧ current < middle ∧ 25 * (middle - current) ^ 2 > 36 * var then "接近下轨"
    else "中轨运行"

/-- calc_tech_indicators (Bollinger touch plus cumulative-sum RSI plus
MA5/MA20 golden cross), with the standard-deviation comparisons embedded by
their squares as in calculate_bollinger_signal. -/
def calc_tech_indicators (closes : List ℚ) : ℚ × String :=
  if closes.length < 30 then (0, "无")
  else
    let last20 := lastN closes 20
    let ma20 := last20.sum / 20
    let var := popVar last20
    let current := closes.getLastD 0
    let deltas := listDiffs closes
    let gains := (deltas.filter (fun d => d > 0)).sum
    let losses := -((deltas.filter (fun d => d < 0)).sum)
    let rsi := if losses > 0 then 100 - 100 / (1 + gains / losses) else 50
    let ma5 := (lastN closes 5).sum / 5
    if current < ma20 ∧ (ma20 - current) ^ 2 > 4 * var then (25, "触底")
    else if current > ma20 ∧ (current - ma20) ^ 2 > 4 * var then (-25, "触顶")
    else if rsi > 85 then (-20, "超买")
    else if rsi < 15 then (20, "超卖")
    else if ma5 > ma20 then (10, "金叉")
    else (0, "普通")

/-- calc_fund_divergence: the bull-trap / pit-digging divergence check on
the most recent money-flow record. -/
def calc_fund_divergence (money_flow : List FlowRecord) (pct_chg : ℚ) :
    ℚ × String :=
  match money_flow with
  | [] => (50, "正常")
  | f :: _ =>
    let net := f.main_net_inflow
    let score : ℚ := 50 + (if net > 0 then 10 else 0) + (if net > 1000 then 10 else 0)
    let s1 :=
      if pct_chg > 3 ∧ net < -2000 then (score - 30, "严重诱多")
      else if pct_chg > 2 ∧ net < -1000 then (score - 20, "诱多")
      else (score, "正常")
    if pct_chg < -3 ∧ net > 2000 then (s1.1 + 25, "明显挖坑")
    else if pct_chg < -2 ∧ net > 1000 then (s1.1 + 15, "挖坑")
    else s1

/-- calc_chip_risk: high-risk when winner rate exceeds 90 and price is more
than 20 percent above average cost.  A falsy cyq_data (None or the empty
dict) short-circuits; a non-empty dict is used even when its valid flag is
false, exactly as in the source. -/
def calc_chip_risk (cyq_data : Option ChipData) (price : ℚ) : ℚ × String :=
  match cyq_data with
  | none => (50, "正常")
  | some c =>
    let win := c.winner_rate
    let cost := if c.avg_cost = 0 then price else c.avg_cost
    let bias := if cost > 0 then (price - cost) / cost * 100 else 0
    if win > 90 ∧ bias > 20 then (win, "高危") else (win, "正常")

/-- The realtime-fund money score of calculate_v9_score (numeric label
suffixes dropped; the label is discarded by the caller). -/
def realtimeMoneyScore (rt : RealtimeFund) : ℚ × String :=
  let rt_net := rt.main_net
  if rt_net > 5000 then (95, "实时流入")
  else if rt_net > 2000 then (80, "实时流入")
  else if rt_net > 500 then (65, "实时小幅流入")
  else if rt_net > -500 then (50, "实时资金平衡")
  else if rt_net > -2000 then (35, "实时小幅流出")
  else (15, "实时大幅流出")

/-- analyze_intent: the ordered five-dimension intent cascade. -/
def analyze_intent (score : ℚ) (flow_msg chip_msg : String) (pct_chg : ℚ)
    (tech_signal : String) : String :=
  if hasSub tech_signal "触底" then "💎铁底回补"
  else if hasSub tech_signal "触顶" then "⚠️触顶回落"
  else if hasSub tech_signal "超买" then "⚠️顶部风险"
  else if hasSub tech_signal "超卖" then "💎黄金坑"
  else if hasSub flow_msg "诱多" then "⚠️诱多出货"
  else if hasSub flow_msg "挖坑" then "💎主力挖坑"
  else if hasSub chip_msg "高危" then "💣高位派发"
  else if hasSub tech_signal "金叉" ∧ score > 65 then "🚀趋势加速"
  else if score > 85 then "🚀主升浪"
  else if score > 70 then "✨强势拉升"
  else if score < 35 then "🌧破位下跌"
  else if 50 < score ∧ score < 75 ∧ -5 < pct_chg ∧ pct_chg < 0 then "🛁主力洗盘"
  else "☁️观察等待"

/-- The breakdown dict assembled by calculate_v9_score (the dead
combined-tech-signal string is omitted; the six scores are rounded to one
decimal as in the source). -/
structure Breakdown where
  trend : ℚ
  volume : ℚ
  position : ℚ
  chip : ℚ
  money : ℚ
  market : ℚ
  tech_signal : String
  flow_msg : String
  chip_msg : String
  deriving DecidableEq, Repr

/-- The try-block body of calculate_v9_score; none models an exception
(a ZeroDivisionError in factor_position or factor_volume_pattern), which
the except-handler maps to the neutral result. -/
def v9body (daily : List Bar) (money_flow : List FlowRecord)
    (market : List Bar) (cyq_data : Option ChipData)
    (realtime_fund : Option RealtimeFund) (regime : MarketRegime) :
    Option (ℚ × Breakdown × String) := do
  let weights := get_adjusted_weights regime
  let (ma_score, _ma_sig) := factor_ma_alignment daily
  let (mom_score, _mom_sig) := factor_momentum daily
  let (pos_score, _pos_sig) ← factor_position daily
  let trend_avg := (ma_score + mom_score + pos_score) / 3
  let (vol_ratio, _vol_sig) := factor_volume_ratio daily
  let (vol_pattern, _vol_pat_sig) ← factor_volume_pattern daily
  let volume_avg := (vol_ratio + vol_pattern) / 2
  let (chip_score, _chip_sig) := factor_chip_profit cyq_data
  let (money_score, _money_sig) :=
    match realtime_fund with
    | some rt => if rt.valid then realtimeMoneyScore rt else factor_main_flow money_flow
    | none => factor_main_flow money_flow
  let (market_score, _market_sig) := factor_market_sync daily market
  let closes := (daily.map (·.close)).reverse
  let pct_chg := (daily.headD ⟨0, 0, 0⟩).change_pct
  let price := (daily.headD ⟨0, 0, 0⟩).close
  let (rsi_value, _rsi_signal) := calculate_rsi closes
  let rsi_score : ℚ :=
    if rsi_value < 30 then 80
    else if rsi_value > 70 then 20
    else 50 + (50 - rsi_value) * (1/2)
  let macdR := calculate_macd closes
  let macd_val := macdR.1
  let signal_val := macdR.2.1
  let macd_signal := macdR.2.2
  let macd_score : ℚ :=
    if hasSub macd_signal "金叉" then 85
    else if hasSub macd_signal "死叉" then 15
    else if macd_val > signal_val then 65
    else 35
  let bb_signal := calculate_bollinger_signal closes
  let bb_score : ℚ :=
    if hasSub bb_signal "触底" then 80
    else if hasSub bb_signal "触顶" then 20
    else if hasSub bb_signal "带宽收窄" then 60
    else 50
  let tech_indicator_score := rsi_score * (4/10) + macd_score * (4/10) + bb_score * (2/10)
  let (tech_fix, tech_signal) := calc_tech_indicators closes
  let (_divergence_score, flow_msg) := calc_fund_divergence money_flow pct_chg
  let (_chip_win, chip_msg) := calc_chip_risk cyq_data price
  let base_factor_score :=
    trend_avg * weights.trend + volume_avg * weights.volume
    + pos_score * weights.position + chip_score * weights.chip
    + money_score * weights.money + market_score * weights.market
  let base_score := base_factor_score * (8/10) + tech_indicator_score * (2/10)
  let fs0 := base_score + tech_fix
  let fs1 :=
    if flow_msg = "诱多" then fs0 - 15
    else if flow_msg = "挖坑" then fs0 + 10
    else fs0
  let fs2 := if chip_msg = "高危" then fs1 - 10 else fs1
  let final_score := max 1 (min 99 fs2)
  let breakdown : Breakdown :=
    { trend := roundTenths trend_avg, volume := roundTenths volume_avg,
      position := roundTenths pos_score, chip := roundTenths chip_score,
      money := roundTenths money_score, market := roundTenths market_score,
      tech_signal := tech_signal, flow_msg := flow_msg, chip_msg := chip_msg }
  let decision := analyze_intent final_score flow_msg chip_msg pct_chg tech_signal
  pure (roundTenths final_score, breakdown, decision)

/-- calculate_v9_score: insufficient data (fewer than 30 bars, which also
covers the empty list) and the except-handler both return the neutral 50
with the observe decision; the breakdown is none in those cases (the source
returns an empty or error dict there). -/
def calculate_v9_score (daily : List Bar) (money_flow : List FlowRecord)
    (market : List Bar) (cyq_data : Option ChipData)
    (realtime_fund : Option RealtimeFund) (regime : MarketRegime) :
    ℚ × Option Breakdown × String :=
  if daily.length < 30 then (50, none, "观察")
  else
    match v9body daily money_flow market cyq_data realtime_fund regime with
    | some (score, breakdown, decision) => (score, some breakdown, decision)
    | none => (50, none, "观察")

section
attribute [local semireducible] Rat.add Rat.mul Rat.sub Rat.inv

/-- C5: The base factor weights sum to 1, and for every regime the weight
map returned by get_adjusted_weights after applying that regime's
multipliers sums to 1 (exactly, over the rationals). -/
theorem C5_weight_normalization :
    WeightMap.total BASE_WEIGHTS = 1
    ∧ ∀ r : MarketRegime, WeightMap.total (get_adjusted_weights r) = 1 := by
  constructor
  · decide
  · intro r
    cases r <;> decide

end

theorem roundTenths_bounds (q : ℚ) (h1 : 1 ≤ q) (h2 : q ≤ 99) :
    1 ≤ roundTenths q ∧ roundTenths q ≤ 99 := by
  simp only [roundTenths]
  have hn1 : (10 : ℤ) ≤ ⌊q * 10⌋ := by
    apply Int.le_floor.mpr
    push_cast
    linarith
  have hn2 : ⌊q * 10⌋ ≤ 990 := by
    have h990 : (q * 10 : ℚ) ≤ ((990 : ℤ) : ℚ) := by push_cast; linarith
    calc ⌊q * 10⌋ ≤ ⌊((990 : ℤ) : ℚ)⌋ := Int.floor_le_floor h990
    _ = 990 := Int.floor_intCast 990
  have hfl : ((⌊q * 10⌋ : ℤ) : ℚ) ≤ q * 10 := Int.floor_le _
  have hc1 : (10 : ℚ) ≤ ((⌊q * 10⌋ : ℤ) : ℚ) := by exact_mod_cast hn1
  have hc2 : ((⌊q * 10⌋ : ℤ) : ℚ) ≤ 990 := by exact_mod_cast hn2
  split_ifs with hr1 hr2 hpar
  · constructor <;> [linarith; linarith]
  · have hlt : ((⌊q * 10⌋ : ℤ) : ℚ) < 990 := by linarith
    have hint : ⌊q * 10⌋ < (990 : ℤ) := by exact_mod_cast hlt
    have hups : ((⌊q * 10⌋ : ℤ) : ℚ) + 1 ≤ 990 := by
      have h1i : ⌊q * 10⌋ + 1 ≤ 990 := hint
      exact_mod_cast h1i
    constructor <;> [linarith; linarith]
  · constructor <;> [linarith; linarith]
  · have heq : q * 10 - ((⌊q * 10⌋ : ℤ) : ℚ) = 1/2 := le_antisymm (not_lt.mp hr2) (not_lt.mp hr1)
    have hlt : ((⌊q * 10⌋ : ℤ) : ℚ) < 990 := by linarith
    have hint : ⌊q * 10⌋ < (990 : ℤ) := by exact_mod_cast hlt
    have hups : ((⌊q * 10⌋ : ℤ) : ℚ) + 1 ≤ 990 := by
      have h1i : ⌊q * 10⌋ + 1 ≤ 990 := hint
      exact_mod_cast h1i
    constructor <;> [linarith; linarith]

theorem v9body_score_shape (daily : List Bar) (money_flow : List FlowRecord)
    (market : List Bar) (cyq_data : Option ChipData)
    (realtime_fund : Option RealtimeFund) (regime : MarketRegime)
    (r : ℚ × Breakdown × String)
    (hr : v9body daily money_flow market cyq_data realtime_fund regime = some r) :
    ∃ q : ℚ, r.1 = roundTenths (max 1 (min 99 q)) := by
  unfold v9body at hr
  cases hpos : factor_position daily with
  | none => rw [hpos] at hr; exact absurd hr (by simp)
  | some p =>
    cases hvp : factor_volume_pattern daily with
    | none => rw [hpos, hvp] at hr; exact absurd hr (by simp)
    | some vp =>
      rw [hpos, hvp] at hr
      simp only [Option.bind_eq_bind, Option.some_bind, Option.pure_def,
        Option.some.injEq] at hr
      exact ⟨_, (congrArg Prod.fst hr).symm⟩

/-- C6: For every input the score returned by calculate_v9_score lies in
[1, 99]; fewer than 30 daily bars (including no bars at all) yields the
neutral 50, and an internal failure of the try-block body (v9body = none,
the except path) also yields 50. -/
theorem C6_score_bounds (daily : List Bar) (money_flow : List FlowRecord)
    (market : List Bar) (cyq_data : Option ChipData)
    (realtime_fund : Option RealtimeFund) (regime : MarketRegime) :
    (1 ≤ (calculate_v9_score daily money_flow market cyq_data realtime_fund regime).1
      ∧ (calculate_v9_score daily money_flow market cyq_data realtime_fund regime).1 ≤ 99)
    ∧ (daily.length < 30 →
        (calculate_v9_score daily money_flow market cyq_data realtime_fund regime).1 = 50)
    ∧ (v9body daily money_flow market cyq_data realtime_fund regime = none →
        (calculate_v9_score daily money_flow market cyq_data realtime_fund regime).1 = 50) := by
  unfold calculate_v9_score
  by_cases hlen : daily.length < 30
  · simp only [if_pos hlen]
    refine ⟨⟨by norm_num, by norm_num⟩, fun _ => trivial, fun _ => trivial⟩
  · simp only [if_neg hlen]
    cases hbody : v9body daily money_flow market cyq_data realtime_fund regime with
    | none =>
      refine ⟨⟨by norm_num, by norm_num⟩, fun h => absurd h hlen, fun _ => rfl⟩
    | some r =>
      obtain ⟨score, breakdown, decision⟩ := r
      obtain ⟨q, hq⟩ := v9body_score_shape daily money_flow market cyq_data
        realtime_fund regime _ hbody
      simp only at hq
      refine ⟨?_, fun h => absurd h hlen, fun h => absurd h (by simp [hbody])⟩
      simp only [hq]
      have hclamp1 : 1 ≤ max 1 (min 99 q) := le_max_left 1 _
      have hclamp2 : max 1 (min 99 q) ≤ 99 :=
        max_le (by norm_num) (min_le_left 99 q)
      exact roundTenths_bounds _ hclamp1 hclamp2

/-- The daily bars of concrete scenario 1: sixty bars flat at price 10
(volume 100), with change_pct 5 on the most recent bar. -/
def c3daily : List Bar :=
  ⟨10, 100, 5⟩ :: List.replicate 59 ⟨10, 100, 0⟩

/-- The outflow sequence of concrete scenario 1. -/
def c3flowOut : List FlowRecord := [⟨-3000⟩, ⟨-3000⟩, ⟨-3000⟩]

/-- A neutral money-flow sequence for the comparison run. -/
def c3flowNeutral : List FlowRecord := [⟨0⟩, ⟨0⟩, ⟨0⟩]

section
attribute [local semireducible] Rat.add Rat.mul Rat.sub Rat.inv

set_option maxRecDepth 8000 in
/-- C3: On sixty flat bars at price 10 with change_pct 5 on the latest bar
and main_net_inflow [-3000, -3000, -3000], the fusion engine's flow check
emits the (severe) bull-trap divergence-short label 严重诱多, the intent
decision is the bull-trap exit label, and the returned score (46.4) is
strictly lower than the score for the same bars with neutral money flow
(49.9). -/
theorem C3_divergence_short :
    ((calculate_v9_score c3daily c3flowOut [] none none MarketRegime.SHOCK).2.1.map
        Breakdown.flow_msg = some "严重诱多")
    ∧ hasSub "严重诱多" "诱多" = true
    ∧ (calculate_v9_score c3daily c3flowOut [] none none MarketRegime.SHOCK).2.2
        = "⚠️诱多出货"
    ∧ (calculate_v9_score c3daily c3flowOut [] none none MarketRegime.SHOCK).1
        < (calculate_v9_score c3daily c3flowNeutral [] none none MarketRegime.SHOCK).1 := by
  refine ⟨?_, ?_, ?_, ?_⟩ <;> decide

end

/-! ### Win-rate model (win_rate_model.py)

The odds update multiplies by (likelihood_ratio) ** 0.5, a real square
root, so the model is embedded over the reals; the table and all tests on
it stay rational. -/

/-- WinRateModel.FACTOR_WIN_RATES. -/
def FACTOR_WIN_RATES : List (String × ℚ) :=
  [("fund_flow_strong_buy", 62/100), ("fund_flow_buy", 54/100),
   ("fund_flow_neutral", 45/100), ("fund_flow_sell", 32/100),
   ("fund_flow_strong_sell", 18/100),
   ("trend_strong_up", 58/100), ("trend_up", 52/100),
   ("trend_neutral", 48/100), ("trend_down", 38/100),
   ("trend_strong_down", 28/100),
   ("macd_golden_cross", 55/100), ("macd_dead_cross", 42/100),
   ("rsi_oversold", 52/100), ("rsi_overbought", 40/100),
   ("bollinger_bottom", 54/100), ("bollinger_top", 32/100),
   ("chip_high_profit", 48/100), ("chip_low_profit", 52/100),
   ("market_bull", 56/100), ("market_shock", 48/100), ("market_bear", 35/100)]

/-- The dict lookup FACTOR_WIN_RATES.get(factor, 0.5). -/
def factorWinRate (factor : String) : ℚ :=
  ((FACTOR_WIN_RATES.find? (fun p => p.1 == factor)).map Prod.snd).getD (1/2)

/-- WinRateModel.classify_fund_flow. -/
def classify_fund_flow (main_net : ℚ) : String :=
  if main_net > 5000 then "fund_flow_strong_buy"
  else if main_net > 1000 then "fund_flow_buy"
  else if main_net > -1000 then "fund_flow_neutral"
  else if main_net > -5000 then "fund_flow_sell"
  else "fund_flow_strong_sell"

/-- One iteration of the calculate_win_probability loop: multiply the odds
by the square root of the factor's likelihood ratio when its table prior
differs from 0.5. -/
noncomputable def oddsStep (odds : ℝ) (factor : String) : ℝ :=
  let factor_prob := factorWinRate factor
  if factor_prob ≠ 1/2 then
    odds * Real.sqrt ((factor_prob : ℝ) / (1 - (factor_prob : ℝ)))
  else odds

/-- WinRateModel.calculate_win_probability: odds seeded from the 0.5 base
rate, the damped odds-multiplication update, conversion back to a
probability and the clamp to [0.15, 0.85]. -/
noncomputable def calculate_win_probability (factors : List String) : ℝ :=
  if factors = [] then 1/2
  else
    let odds := factors.foldl oddsStep ((1/2) / (1 - 1/2))
    let prob := odds / (1 + odds)
    max (15/100) (min (85/100) prob)

/-- The five fund-flow buckets, ordered by idx from strong outflow to
strong inflow. -/
inductive FundBucket
  | strongSellB
  | sellB
  | neutralB
  | buyB
  | strongBuyB
  deriving DecidableEq, Repr

/-- The bucket order used in the monotonicity claim. -/
def FundBucket.idx : FundBucket → ℕ
  | .strongSellB => 0
  | .sellB => 1
  | .neutralB => 2
  | .buyB => 3
  | .strongBuyB => 4

/-- The FACTOR_WIN_RATES key of a fund-flow bucket (the strings produced by
classify_fund_flow). -/
def FundBucket.key : FundBucket → String
  | .strongSellB => "fund_flow_strong_sell"
  | .sellB => "fund_flow_sell"
  | .neutralB => "fund_flow_neutral"
  | .buyB => "fund_flow_buy"
  | .strongBuyB => "fund_flow_strong_buy"

/-- The likelihood ratio p / (1 - p) of a bucket's table prior. -/
def bucketRatio (b : FundBucket) : ℚ :=
  factorWinRate b.key / (1 - factorWinRate b.key)

section
attribute [local semireducible] Rat.add Rat.mul Rat.sub Rat.inv

theorem bucket_prob_ne_half (b : FundBucket) : factorWinRate b.key ≠ 1/2 := by
  cases b <;> decide

theorem bucketRatio_mono (b b' : FundBucket) (h : b.idx ≤ b'.idx) :
    bucketRatio b ≤ bucketRatio b' := by
  cases b <;> cases b' <;>
    first
      | decide
      | exact absurd h (by decide)

theorem bucket_prob_lt_one (b : FundBucket) : factorWinRate b.key < 1 := by
  cases b <;> decide

end

theorem oddsStep_nonneg (f : String) {a : ℝ} (ha : 0 ≤ a) :
    0 ≤ oddsStep a f := by
  simp only [oddsStep]
  split
  · exact mul_nonneg ha (Real.sqrt_nonneg _)
  · exact ha

theorem oddsStep_mono (f : String) {a b : ℝ} (hab : a ≤ b) :
    oddsStep a f ≤ oddsStep b f := by
  simp only [oddsStep]
  split
  · exact mul_le_mul_of_nonneg_right hab (Real.sqrt_nonneg _)
  · exact hab

theorem foldl_oddsStep_nonneg (l : List String) {a : ℝ} (ha : 0 ≤ a) :
    0 ≤ l.foldl oddsStep a := by
  induction l generalizing a with
  | nil => exact ha
  | cons f rest ih => exact ih (oddsStep_nonneg f ha)

theorem foldl_oddsStep_mono (l : List String) {a b : ℝ} (hab : a ≤ b) :
    l.foldl oddsStep a ≤ l.foldl oddsStep b := by
  induction l generalizing a b with
  | nil => exact hab
  | cons f rest ih => exact ih (oddsStep_mono f hab)

theorem odds_to_prob_mono {a b : ℝ} (ha : 0 ≤ a) (hab : a ≤ b) :
    a / (1 + a) ≤ b / (1 + b) := by
  have h1 : (0 : ℝ) < 1 + a := by linarith
  have h2 : (0 : ℝ) < 1 + b := by linarith
  rw [div_le_div_iff₀ h1 h2]
  nlinarith

/-- C8: Holding the list of other factors fixed, moving the fund-flow
bucket upward in the order strong_sell < sell < neutral < buy < strong_buy
does not decrease the win probability returned by
calculate_win_probability. -/
theorem C8_win_rate_monotonicity (others : List String) (b b' : FundBucket)
    (h : b.idx ≤ b'.idx) :
    calculate_win_probability (b.key :: others)
      ≤ calculate_win_probability (b'.key :: others) := by
  unfold calculate_win_probability
  rw [if_neg (List.cons_ne_nil _ _), if_neg (List.cons_ne_nil _ _)]
  simp only [List.foldl_cons]
  have hinit : (0 : ℝ) ≤ (1/2) / (1 - 1/2) := by norm_num
  have hstep : oddsStep ((1/2) / (1 - 1/2)) b.key
      ≤ oddsStep ((1/2) / (1 - 1/2)) b'.key := by
    simp only [oddsStep]
    rw [if_pos (bucket_prob_ne_half b), if_pos (bucket_prob_ne_half b')]
    apply mul_le_mul_of_nonneg_left _ hinit
    apply Real.sqrt_le_sqrt
    have hq := bucketRatio_mono b b' h
    unfold bucketRatio at hq
    have hcast : ((factorWinRate b.key / (1 - factorWinRate b.key) : ℚ) : ℝ)
        ≤ ((factorWinRate b'.key / (1 - factorWinRate b'.key) : ℚ) : ℝ) :=
      Rat.cast_le.mpr hq
    push_cast at hcast
    exact hcast
  have ha : (0 : ℝ) ≤ List.foldl oddsStep (oddsStep ((1/2) / (1 - 1/2)) b.key) others :=
    foldl_oddsStep_nonneg others (oddsStep_nonneg _ hinit)
  have hfold := foldl_oddsStep_mono others hstep
  exact max_le_max (le_refl _)
    (min_le_min (le_refl _) (odds_to_prob_mono ha hfold))

/-- C8 witness: moving the fund-flow bucket from strong outflow to strong
inflow with the market-shock factor held fixed. -/
theorem C8_win_rate_monotonicity_witness :
    FundBucket.strongSellB.idx ≤ FundBucket.strongBuyB.idx
    ∧ calculate_win_probability (FundBucket.strongSellB.key :: ["market_shock"])
      ≤ calculate_win_probability (FundBucket.strongBuyB.key :: ["market_shock"]) :=
  ⟨by decide,
   C8_win_rate_monotonicity ["market_shock"] FundBucket.strongSellB
     FundBucket.strongBuyB (by decide)⟩

end StockSentinel
